import Mathlib

/-!
Verification development for `stormdb/process.py` (class `Maxfilter`).

The embedding models the two routines the claims are about:

* `Maxfilter.fit_sphere_to_headshape` (process.py lines 62-142): digitization
  filtering, unit scaling, the initial guess, the call to the direct-search
  minimizer `scipy.optimize.fmin_powell`, the device/head frame check and the
  transform of the fitted center into device coordinates.
* `Maxfilter.build_maxfilter_cmd` (process.py lines 145-338): assembly of the
  MaxFilter shell command, including the `origin=None` head-origin estimation
  path and the MaxST option block.

Real-number coordinates are embedded as `ℚ` (every concrete machine float is a
rational; the claims are about exact data flow, filtering and algebra, not
about rounding), except for the least-squares objective, which uses `Real.sqrt`
and therefore lives in `ℝ`.  `scipy.optimize.fmin_powell` is an external
library routine; it is embedded as an explicit function parameter `fmin`
receiving the display flag, the point list (the `args=(hsp,)` payload of the
fixed objective `cost_fun`) and the starting point, and returning the optimizer
result; theorems constrain it through hypotheses about the objective
`cost_fun`.  Python exceptions are embedded as `Except PyErr`.
-/

namespace Stormdb

/-- Python exception classes raised (or raisable) by the modelled code paths. -/
inductive PyErr where
  | valueError
  | typeError
  | runtimeError
  | attributeError
  | indexError
  | keyError
  deriving DecidableEq

/-- A 3D digitization coordinate triple `p['r']`; index 0 is x, 1 is y, 2 is z. -/
structure P3 where
  x : ℚ
  y : ℚ
  z : ℚ
  deriving DecidableEq

/-- One entry of `info['dig']`: a point kind tag and a coordinate triple. -/
structure DigPoint where
  kind : Nat
  r : P3
  deriving DecidableEq

/-- `FIFF.FIFFV_POINT_EXTRA` (value 4 in the FIFF constant table). -/
def FIFFV_POINT_EXTRA : Nat := 4

/-- `FIFF.FIFFV_COORD_DEVICE` (value 1 in the FIFF constant table). -/
def FIFFV_COORD_DEVICE : Nat := 1

/-- `FIFF.FIFFV_COORD_HEAD` (value 4 in the FIFF constant table). -/
def FIFFV_COORD_HEAD : Nat := 4

/-- A 4x4 affine transform matrix, row major: entry `aRC` is row R, column C. -/
structure Mat4 where
  a00 : ℚ
  a01 : ℚ
  a02 : ℚ
  a03 : ℚ
  a10 : ℚ
  a11 : ℚ
  a12 : ℚ
  a13 : ℚ
  a20 : ℚ
  a21 : ℚ
  a22 : ℚ
  a23 : ℚ
  a30 : ℚ
  a31 : ℚ
  a32 : ℚ
  a33 : ℚ
  deriving DecidableEq

/-- The transform `info['dev_head_t']`: source and destination frame tags plus the matrix. -/
structure Transform where
  fromFrame : Nat
  toFrame : Nat
  mat : Mat4
  deriving DecidableEq

/-- The slice of the measurement `info` dictionary that the routine reads. -/
structure Info where
  dig : List DigPoint
  dev_head_t : Transform
  deriving DecidableEq

/-- A 4-vector of parameters `(center_x, center_y, center_z, radius)`, or a
homogeneous coordinate vector. -/
abbrev V4 := ℚ × ℚ × ℚ × ℚ

/-- Determinant of a 3x3 matrix given row major. -/
def det3 (a b c d e f g h i : ℚ) : ℚ :=
  a * (e * i - f * h) - b * (d * i - f * g) + c * (d * h - e * g)

/-- Determinant of a 4x4 matrix (Laplace expansion along the first row). -/
def Mat4.det4 (M : Mat4) : ℚ :=
  M.a00 * det3 M.a11 M.a12 M.a13 M.a21 M.a22 M.a23 M.a31 M.a32 M.a33
  - M.a01 * det3 M.a10 M.a12 M.a13 M.a20 M.a22 M.a23 M.a30 M.a32 M.a33
  + M.a02 * det3 M.a10 M.a11 M.a13 M.a20 M.a21 M.a23 M.a30 M.a31 M.a33
  - M.a03 * det3 M.a10 M.a11 M.a12 M.a20 M.a21 M.a22 M.a30 M.a31 M.a32

/-- Model of `scipy.linalg.inv` on a 4x4 matrix: the matrix inverse, written as the
adjugate (transposed cofactor matrix) divided by the determinant. -/
def Mat4.inv4 (M : Mat4) : Mat4 :=
  let d := M.det4
  { a00 :=  (det3 M.a11 M.a12 M.a13 M.a21 M.a22 M.a23 M.a31 M.a32 M.a33) / d
    a01 := -(det3 M.a01 M.a02 M.a03 M.a21 M.a22 M.a23 M.a31 M.a32 M.a33) / d
    a02 :=  (det3 M.a01 M.a02 M.a03 M.a11 M.a12 M.a13 M.a31 M.a32 M.a33) / d
    a03 := -(det3 M.a01 M.a02 M.a03 M.a11 M.a12 M.a13 M.a21 M.a22 M.a23) / d
    a10 := -(det3 M.a10 M.a12 M.a13 M.a20 M.a22 M.a23 M.a30 M.a32 M.a33) / d
    a11 :=  (det3 M.a00 M.a02 M.a03 M.a20 M.a22 M.a23 M.a30 M.a32 M.a33) / d
    a12 := -(det3 M.a00 M.a02 M.a03 M.a10 M.a12 M.a13 M.a30 M.a32 M.a33) / d
    a13 :=  (det3 M.a00 M.a02 M.a03 M.a10 M.a12 M.a13 M.a20 M.a22 M.a23) / d
    a20 :=  (det3 M.a10 M.a11 M.a13 M.a20 M.a21 M.a23 M.a30 M.a31 M.a33) / d
    a21 := -(det3 M.a00 M.a01 M.a03 M.a20 M.a21 M.a23 M.a30 M.a31 M.a33) / d
    a22 :=  (det3 M.a00 M.a01 M.a03 M.a10 M.a11 M.a13 M.a30 M.a31 M.a33) / d
    a23 := -(det3 M.a00 M.a01 M.a03 M.a10 M.a11 M.a13 M.a20 M.a21 M.a23) / d
    a30 := -(det3 M.a10 M.a11 M.a12 M.a20 M.a21 M.a22 M.a30 M.a31 M.a32) / d
    a31 :=  (det3 M.a00 M.a01 M.a02 M.a20 M.a21 M.a22 M.a30 M.a31 M.a32) / d
    a32 := -(det3 M.a00 M.a01 M.a02 M.a10 M.a11 M.a12 M.a30 M.a31 M.a32) / d
    a33 :=  (det3 M.a00 M.a01 M.a02 M.a10 M.a11 M.a12 M.a20 M.a21 M.a22) / d }

/-- The product `np.dot` of a 4x4 matrix with a homogeneous 4-vector. -/
def Mat4.mulVec (M : Mat4) (v : V4) : V4 :=
  (M.a00 * v.1 + M.a01 * v.2.1 + M.a02 * v.2.2.1 + M.a03 * v.2.2.2,
   M.a10 * v.1 + M.a11 * v.2.1 + M.a12 * v.2.2.1 + M.a13 * v.2.2.2,
   M.a20 * v.1 + M.a21 * v.2.1 + M.a22 * v.2.2.1 + M.a23 * v.2.2.2,
   M.a30 * v.1 + M.a31 * v.2.1 + M.a32 * v.2.2.1 + M.a33 * v.2.2.2)

/-- The dynamically typed `ylim` / `zlim` argument of
`fit_sphere_to_headshape`: `None`, a `(min, max)` pair, or (as passed by
`build_maxfilter_cmd`) a bare scalar. -/
inductive LimArg where
  | noneArg
  | pair (lo hi : ℚ)
  | scalar (v : ℚ)
  deriving DecidableEq

/-- Python subscripting `lim[i]` on the `ylim`/`zlim` argument: a pair yields
its components, index past the end is an `IndexError`, and subscripting a bare
float (or `None`) is a `TypeError`. -/
def limSub : LimArg → Nat → Except PyErr ℚ
  | .pair lo _, 0 => .ok lo
  | .pair _ hi, 1 => .ok hi
  | .pair _ _, _ => .error .indexError
  | .scalar _, _ => .error .typeError
  | .noneArg, _ => .error .typeError

/-- The list comprehension
`[p for p in hsp if (p[i] > lim[0] and p[i] < lim[1])]` (process.py lines
102 and 107), evaluated with Python semantics: for each element in order the
condition evaluates `lim[0]` (and, only when the first comparison holds,
`lim[1]`), so a non-subscriptable `lim` raises at the first element. -/
def limFilter (coord : P3 → ℚ) (lim : LimArg) : List P3 → Except PyErr (List P3)
  | [] => .ok []
  | p :: ps => do
    let lo ← limSub lim 0
    if coord p > lo then do
      let hi ← limSub lim 1
      let rest ← limFilter coord lim ps
      if coord p < hi then pure (p :: rest) else pure rest
    else
      limFilter coord lim ps

/-- The guarded range filter: `if lim is not None: hsp = [p for p in hsp if
(p[i] > lim[0] and p[i] < lim[1])]` (process.py lines 98-107). -/
def applyLim (coord : P3 → ℚ) (lim : LimArg) (l : List P3) : Except PyErr (List P3) :=
  match lim with
  | .noneArg => .ok l
  | lim => limFilter coord lim l

/-- Process.py lines 94-96: keep digitization points whose kind is
`FIFFV_POINT_EXTRA` and which do not satisfy `(p['r'][2] < 0 and
p['r'][1] > 0)`, and take their coordinate triples. -/
def extraFiltered (dig : List DigPoint) : List P3 :=
  (dig.filter (fun p =>
    p.kind == FIFFV_POINT_EXTRA && !(decide (p.r.z < 0) && decide (p.r.y > 0)))).map
    (fun p => p.r)

/-- Process.py lines 94-107: the head-shape point list after the kind filter,
the implicit frontal-point exclusion, and the optional `ylim` and `zlim`
range filters, in that order. -/
def filteredPoints (dig : List DigPoint) (ylim zlim : LimArg) : Except PyErr (List P3) := do
  let hsp := extraFiltered dig
  let hsp ← applyLim (fun p => p.y) ylim hsp
  applyLim (fun p => p.z) zlim hsp

/-- Model of `np.max` over a list (the lists it is applied to are non-empty; the `[]`
case is an arbitrary default that no modelled code path reaches). -/
def listMax : List ℚ → ℚ
  | [] => 0
  | a :: l => l.foldl max a

/-- Model of `np.min` over a list (same remark about the `[]` case as `listMax`). -/
def listMin : List ℚ → ℚ
  | [] => 0
  | a :: l => l.foldl min a

/-- Process.py line 112: scale a point from meters to millimeters. -/
def scalePoint (p : P3) : P3 := ⟨1000 * p.x, 1000 * p.y, 1000 * p.z⟩

/-- Process.py lines 114-122: the initial guess
`x0 = np.r_[center_init, radius_init]` with `xradius`/`yradius` the coordinate
half-ranges, `radius_init` their mean and `center_init = [0, 0, max z -
radius_init]`. -/
def initGuess (hsp : List P3) : V4 :=
  let xradius := (listMax (hsp.map P3.x) - listMin (hsp.map P3.x)) / 2
  let yradius := (listMax (hsp.map P3.y) - listMin (hsp.map P3.y)) / 2
  let radius_init := (xradius + yradius) / 2
  (0, 0, listMax (hsp.map P3.z) - radius_init, radius_init)

/-- Process.py lines 123-124: the least-squares objective
`cost_fun = lambda x, hsp: np.sum((np.sqrt(np.sum((hsp - x[:3]) ** 2,
axis=1)) - x[3]) ** 2)`. -/
noncomputable def cost_fun (x : V4) (hsp : List P3) : ℝ :=
  (hsp.map (fun p =>
    (Real.sqrt (((p.x - x.1) ^ 2 + (p.y - x.2.1) ^ 2 + (p.z - x.2.2.1) ^ 2 : ℚ) : ℝ)
      - (x.2.2.2 : ℝ)) ^ 2)).sum

/-- The type at which `scipy.optimize.fmin_powell(cost_fun, x0, args=(hsp,),
disp=disp)` enters the embedding: an external function of the display flag,
the extra objective argument `hsp` and the starting point `x0`, returning the
optimizer result. -/
abbrev FminT := Bool → List P3 → V4 → V4

/-- The result triple `(radius, origin_head, origin_device)`, all in mm. -/
abbrev FitResult := ℚ × P3 × P3

/-- Process.py lines 129-142: split the optimizer result into
`origin_head = x_opt[:3]` and `radius = x_opt[3]`, validate that
`info['dev_head_t']` maps the device frame to the head frame (else
`RuntimeError`), and map the head-frame center through the inverted transform:
`origin_device = 1e3 * np.dot(linalg.inv(trans), np.r_[1e-3 * origin_head,
1.0])[:3]`. -/
def fitFinish (trans : Transform) (x_opt : V4) : Except PyErr FitResult :=
  let origin_head : P3 := ⟨x_opt.1, x_opt.2.1, x_opt.2.2.1⟩
  let radius := x_opt.2.2.2
  if trans.fromFrame ≠ FIFFV_COORD_DEVICE ∨ trans.toFrame ≠ FIFFV_COORD_HEAD then
    .error .runtimeError
  else
    let head_to_dev := trans.mat.inv4
    let w := head_to_dev.mulVec
      (origin_head.x / 1000, origin_head.y / 1000, origin_head.z / 1000, 1)
    .ok (radius, origin_head, ⟨1000 * w.1, 1000 * w.2.1, 1000 * w.2.2.1⟩)

/-- The routine `Maxfilter.fit_sphere_to_headshape` (process.py lines 62-142), with the
external minimizer supplied as `fmin`: filter the digitization points, raise
`ValueError` if none remain, scale to millimeters, run the minimizer from the
initial guess with `disp = True if verbose else False`, and post-process the
optimizer result through the frame check and transform. -/
def fit_sphere_to_headshape (fmin : FminT) (info : Info) (ylim zlim : LimArg)
    (verbose : Option Bool) : Except PyErr FitResult := do
  let hsp0 ← filteredPoints info.dig ylim zlim
  if hsp0.length = 0 then
    .error .valueError
  else
    let hsp := hsp0.map scalePoint
    let disp := verbose.getD false
    fitFinish info.dev_head_t (fmin disp hsp (initGuess hsp))

/-! ### The `build_maxfilter_cmd` model (process.py lines 145-338) -/

/-- A Python number as passed for `st_buflen`: an `int` or a `float` (every
IEEE double is a rational). -/
inductive PyNum where
  | int (n : ℤ)
  | float (q : ℚ)
  deriving DecidableEq

/-- Formatting `'{:d}'.format(v)`: renders an `int`; on a `float` CPython raises
`ValueError` ("Unknown format code 'd' for object of type 'float'"). -/
def formatD : PyNum → Except PyErr String
  | .int n => .ok (toString n)
  | .float _ => .error .valueError

/-- Fixed-point rendering of a rational with `prec` digits after the point
(the `'{:.Nf}'` format): round to nearest at the last digit and zero-pad. -/
def formatFixed (prec : Nat) (q : ℚ) : String :=
  let n : ℤ := round (q * (10 : ℚ) ^ prec)
  let sign := if n < 0 then "-" else ""
  let m := n.natAbs
  let ip := m / 10 ^ prec
  let fp := m % 10 ^ prec
  if prec = 0 then sign ++ toString ip
  else
    let fs := toString fp
    sign ++ toString ip ++ "." ++ String.mk (List.replicate (prec - fs.length) '0') ++ fs

/-- Python `str.split()` with no argument: split on whitespace runs,
discarding empty fragments. -/
def pySplit (s : String) : List String :=
  (s.split fun c => c.isWhitespace).filter (fun t => t ≠ "")

/-- The attributes a Python `float` object exposes (besides dunder names);
`getattr` on any other name raises `AttributeError`. -/
def floatAttrs : List String :=
  ["real", "imag", "conjugate", "hex", "fromhex", "is_integer", "as_integer_ratio"]

/-- Evaluate the attribute/index accesses of a `str.format` field name against
a `float` argument, as CPython does before applying the format spec: each
`.name` access is a `getattr` (an unknown attribute raises `AttributeError`,
an empty attribute raises `ValueError`), each `[...]` access is a subscript
(raising `TypeError` on a float). -/
def checkAccesses : List Char → Except PyErr Unit
  | [] => .ok ()
  | '.' :: rest =>
    let attr := rest.takeWhile fun c => c != '.' && c != '['
    if attr.length = 0 then .error .valueError
    else if floatAttrs.contains (String.mk attr) then checkAccesses (rest.drop attr.length)
    else .error .attributeError
  | '[' :: _ => .error .typeError
  | _ => .error .valueError
termination_by l => l.length
decreasing_by simp [List.length_drop]; omega

/-- Parse a fixed-point float format spec of the form `.Nf` (the only spec
form the modelled source applies to floats), yielding the precision. -/
def parsePrecF (spec : List Char) : Option Nat :=
  match spec with
  | '.' :: rest =>
    let ds := rest.takeWhile Char.isDigit
    if ds ≠ [] ∧ rest.drop ds.length = ['f'] then
      some (ds.foldl (fun n c => 10 * n + (c.toNat - 48)) 0)
    else none
  | _ => none

/-- One `str.format` replacement field applied to a `float` argument.
`content` is the text between the braces.  CPython splits it at the first
`':'` into field name and format spec, resolves the field name's
attribute/index accesses on the argument, and only then applies the spec.
The spec forms appearing in process.py are `.Nf` fixed-point specs; any other
spec applied to a float is outside the modelled paths and mapped to
`ValueError`. -/
def pyFloatField (content : String) (x : ℚ) : Except PyErr String := do
  let cs := content.data
  let name := cs.takeWhile fun c => c != ':'
  let argPart := name.takeWhile fun c => c != '.' && c != '['
  if ¬ (argPart = [] ∨ argPart.all Char.isDigit) then .error .keyError
  else do
    let _ ← checkAccesses (name.drop argPart.length)
    match parsePrecF ((cs.drop name.length).drop 1) with
    | some prec => .ok (formatFixed prec x)
    | none => .error .valueError

/-- The dynamically typed `origin` argument: a string, a coordinate triple,
`None` (estimate from head shape), or `False` (no `-origin` flag). -/
inductive OriginArg where
  | str (s : String)
  | triple (x y z : ℚ)
  | noneArg
  | falseArg
  deriving DecidableEq

/-- The `bad` argument: `None`, a whitespace-separated string, or a list. -/
inductive BadArg where
  | noneArg
  | str (s : String)
  | list (l : List String)
  deriving DecidableEq

/-- Process.py lines 281-282: a string `bad` is split; a list is kept. -/
def badList : BadArg → List String
  | .noneArg => []
  | .str s => pySplit s
  | .list l => l

/-- The `skip` argument: `None`, a preformatted string, or a list of time
interval pairs. -/
inductive SkipArg where
  | noneArg
  | str (s : String)
  | pairs (l : List (ℚ × ℚ))
  deriving DecidableEq

/-- The `movecomp` argument: `False`, `True`, or the string `'inter'`. -/
inductive MoveCompArg where
  | falseArg
  | trueArg
  | interArg
  deriving DecidableEq

/-- The keyword-argument record of `build_maxfilter_cmd` (process.py lines
145-152), with each dynamically typed argument given its variant type. -/
structure BuildArgs where
  in_fname : String
  out_fname : String
  origin : OriginArg
  frame : String
  bad : BadArg
  autobad : String
  skip : SkipArg
  force : Bool
  st : Bool
  st_buflen : PyNum
  st_corr : ℚ
  mv_trans : Option String
  movecomp : MoveCompArg
  mv_headpos : Bool
  mv_hp : Option String
  mv_hpistep : Option ℚ
  mv_hpisubt : Option String
  hpicons : Bool
  linefreq : Option ℤ
  cal : Option String
  ctc : Option String
  mx_args : String
  maxfilter_bin : String
  logfile : Option String

/-- Process.py lines 245-264: when `origin` is `None`, estimate it.  The
`Raw(in_fname)` metadata read is modelled by the supplied `info`.  The fit is
invoked with the scalar `ylim=0.070`; its results are then interpolated into
the log strings `'... r = {.1f} mm'` and `'... {.1f} {.1f} {.1f} mm'` (each
replacement field is evaluated against its float argument).  Line 264 only
constructs `RuntimeError('invalid frame for origin')` without raising it, so
an unrecognized `frame` leaves `origin` equal to `None`. -/
def resolveOrigin (fmin : FminT) (info : Info) (frame : String) :
    OriginArg → Except PyErr OriginArg
  | .noneArg => do
    let res ← fit_sphere_to_headshape fmin info (.scalar (7/100)) .noneArg none
    let r := res.1
    let o_head := res.2.1
    let o_dev := res.2.2
    let _ ← pyFloatField ".1f" r
    let _ ← pyFloatField ".1f" o_head.x
    let _ ← pyFloatField ".1f" o_head.y
    let _ ← pyFloatField ".1f" o_head.z
    let _ ← pyFloatField ".1f" o_dev.x
    let _ ← pyFloatField ".1f" o_dev.y
    let _ ← pyFloatField ".1f" o_dev.z
    if frame = "head" then pure (.triple o_head.x o_head.y o_head.z)
    else if frame = "device" then pure (.triple o_dev.x o_dev.y o_dev.z)
    else pure .noneArg
  | o => pure o

/-- The routine `Maxfilter.build_maxfilter_cmd` (process.py lines 145-338): resolve the
origin (estimating it from the head shape when `origin=None`), then append
each option's flag string in source order.  The returned string is the value
assigned to `self.cmd`; an exception anywhere leaves `self.cmd` unassigned,
modelled as `Except.error`.  A `None` origin surviving resolution (the
unrecognized-`frame` path) is subscripted by `'{:.1f} ...'.format(origin[0],
...)`, raising `TypeError`. -/
def build_maxfilter_cmd (fmin : FminT) (info : Info) (a : BuildArgs) :
    Except PyErr String := do
  let origin ← resolveOrigin fmin info a.frame a.origin
  let cmd ← match origin with
    | .falseArg =>
        pure (a.maxfilter_bin ++ " -f " ++ a.in_fname ++ " -o " ++ a.out_fname ++ " -v ")
    | .noneArg => (.error .typeError : Except PyErr String)
    | .str s =>
        pure (a.maxfilter_bin ++ " -f " ++ a.in_fname ++ " -o " ++ a.out_fname ++
          " -frame " ++ a.frame ++ " -origin " ++ s ++ " -v ")
    | .triple x y z => do
        let ox ← pyFloatField ":.1f" x
        let oy ← pyFloatField ":.1f" y
        let oz ← pyFloatField ":.1f" z
        pure (a.maxfilter_bin ++ " -f " ++ a.in_fname ++ " -o " ++ a.out_fname ++
          " -frame " ++ a.frame ++ " -origin " ++ (ox ++ " " ++ oy ++ " " ++ oz) ++ " -v ")
  let cmd := match a.bad with
    | .noneArg => cmd
    | b => cmd ++ "-bad " ++ String.intercalate " "
        ((badList b).map fun ch => if ch.startsWith "MEG" then ch.drop 3 else ch) ++ " "
  let cmd := cmd ++ "-autobad " ++ a.autobad ++ " "
  let cmd := match a.skip with
    | .noneArg => cmd
    | .str s => cmd ++ "-skip " ++ s ++ " "
    | .pairs l => cmd ++ "-skip " ++ String.intercalate " "
        (l.map fun s => formatFixed 3 s.1 ++ " " ++ formatFixed 3 s.2) ++ " "
  let cmd := if a.force then cmd ++ "-force " else cmd
  let cmd ← if a.st then do
      let bufs ← formatD a.st_buflen
      pure (cmd ++ "-st " ++ (" " ++ bufs ++ " ") ++ "-corr " ++ formatFixed 4 a.st_corr ++ " ")
    else pure cmd
  let cmd := match a.mv_trans with
    | none => cmd
    | some t => cmd ++ "-trans " ++ t ++ " "
  let cmd := if a.movecomp ≠ .falseArg then
      let c := cmd ++ "-movecomp "
      let c := if a.movecomp = .interArg then c ++ " inter " else c
      let c := if a.mv_headpos then c ++ "-headpos " else c
      let c := match a.mv_hp with | none => c | some h => c ++ "-hp " ++ h ++ " "
      let c := match a.mv_hpisubt with | none => c | some h => c ++ "hpisubt " ++ h ++ " "
      if a.hpicons then c ++ "-hpicons " else c
    else cmd
  let cmd := match a.linefreq with | none => cmd | some f => cmd ++ "-linefreq " ++ toString f ++ " "
  let cmd := match a.cal with | none => cmd | some c => cmd ++ "-cal " ++ c ++ " "
  let cmd := match a.ctc with | none => cmd | some c => cmd ++ "-ctc " ++ c ++ " "
  let cmd := cmd ++ a.mx_args
  let cmd := match a.logfile with
    | none => cmd
    | some lf => if lf = "" then cmd else cmd ++ " | tee " ++ lf
  pure cmd

/-! ### Concrete fixtures used by witnesses and counterexamples -/

/-- The 6 vertices of an axis-aligned octahedron of radius 50 mm centered at
(0, 0, 100 mm), given in meters and all tagged `FIFFV_POINT_EXTRA`. -/
def octDig : List DigPoint :=
  [⟨4, ⟨1/20, 0, 1/10⟩⟩, ⟨4, ⟨-1/20, 0, 1/10⟩⟩, ⟨4, ⟨0, 1/20, 1/10⟩⟩,
   ⟨4, ⟨0, -1/20, 1/10⟩⟩, ⟨4, ⟨0, 0, 3/20⟩⟩, ⟨4, ⟨0, 0, 1/20⟩⟩]

/-- The octahedron vertices after the meters-to-millimeters scaling. -/
def octHsp : List P3 :=
  [⟨50, 0, 100⟩, ⟨-50, 0, 100⟩, ⟨0, 50, 100⟩, ⟨0, -50, 100⟩, ⟨0, 0, 150⟩, ⟨0, 0, 50⟩]

/-- The pure-translation affine matrix mapping device to head coordinates:
head = device + (tx, ty, tz), in meters. -/
def transMat (tx ty tz : ℚ) : Mat4 :=
  ⟨1, 0, 0, tx, 0, 1, 0, ty, 0, 0, 1, tz, 0, 0, 0, 1⟩

/-- Octahedron measurement info with a pure-translation device-to-head
transform. -/
def octInfo (tx ty tz : ℚ) : Info := ⟨octDig, ⟨1, 4, transMat tx ty tz⟩⟩

/-- A single digitization point at (0, 0, 0.15 m): it lies on the sphere of
center (0, 0, 100 mm) and radius 50 mm, but does not determine that sphere. -/
def singleDig : List DigPoint := [⟨4, ⟨0, 0, 3/20⟩⟩]

/-- A `build_maxfilter_cmd` argument record holding the source's default
values (process.py lines 145-152): origin `'0 0 40'`, frame `'head'`,
`autobad='off'`, `st=False` with `st_buflen=16.0` and `st_corr=0.96`,
`hpicons=True`, everything else off. -/
def baseArgs : BuildArgs where
  in_fname := "in.fif"
  out_fname := "out.fif"
  origin := .str "0 0 40"
  frame := "head"
  bad := .noneArg
  autobad := "off"
  skip := .noneArg
  force := false
  st := false
  st_buflen := .float 16
  st_corr := 24/25
  mv_trans := none
  movecomp := .falseArg
  mv_headpos := false
  mv_hp := none
  mv_hpistep := none
  mv_hpisubt := none
  hpicons := true
  linefreq := none
  cal := none
  ctc := none
  mx_args := ""
  maxfilter_bin := "/neuro/bin/util/maxfilter"
  logfile := none

/-- An `Option (ℚ × ℚ)` range argument as the dynamic `ylim`/`zlim` value. -/
def toLim : Option (ℚ × ℚ) → LimArg
  | none => .noneArg
  | some rg => .pair rg.1 rg.2

/-- The spec-side retention predicate of an optional axis range: with no range
every value passes; with a `(min, max)` range only values strictly between the
bounds pass. -/
def optInRange : Option (ℚ × ℚ) → ℚ → Prop
  | none, _ => True
  | some rg, v => rg.1 < v ∧ v < rg.2

/-! Reduction lemmas for the `Except` monad, used throughout the proofs. -/

@[simp] theorem ok_bind {α β : Type} (a : α) (k : α → Except PyErr β) :
    (Except.ok a >>= k) = k a := rfl

@[simp] theorem error_bind {α β : Type} (e : PyErr) (k : α → Except PyErr β) :
    ((Except.error e : Except PyErr α) >>= k) = Except.error e := rfl

@[simp] theorem pure_eq_ok {α : Type} (a : α) : (pure a : Except PyErr α) = Except.ok a := rfl

/-! ### Helper lemmas about the range filters -/

theorem limFilter_pair (coord : P3 → ℚ) (lo hi : ℚ) (l : List P3) :
    limFilter coord (.pair lo hi) l
      = .ok (l.filter fun p => decide (coord p > lo) && decide (coord p < hi)) := by
  induction l with
  | nil => rfl
  | cons p ps ih =>
    simp only [limFilter, limSub, ok_bind, List.filter_cons, ih]
    by_cases h1 : coord p > lo
    · by_cases h2 : coord p < hi
      · simp [h1, h2]
      · simp [h1, h2]
    · simp [h1]

theorem limFilter_scalar (coord : P3 → ℚ) (c : ℚ) (p : P3) (ps : List P3) :
    limFilter coord (.scalar c) (p :: ps) = .error .typeError := rfl

/-- The range filter with a `(lo, hi)` pair never raises and keeps exactly the
points with coordinate strictly between the bounds. -/
theorem applyLim_pair (coord : P3 → ℚ) (lo hi : ℚ) (l : List P3) :
    applyLim coord (.pair lo hi) l
      = .ok (l.filter fun p => decide (coord p > lo) && decide (coord p < hi)) := by
  simp [applyLim, limFilter_pair]

theorem applyLim_none (coord : P3 → ℚ) (l : List P3) :
    applyLim coord .noneArg l = .ok l := rfl

theorem mem_extraFiltered (dig : List DigPoint) (q : P3) :
    q ∈ extraFiltered dig
      ↔ ∃ p ∈ dig, p.r = q ∧ p.kind = FIFFV_POINT_EXTRA ∧ ¬(q.z < 0 ∧ q.y > 0) := by
  simp only [extraFiltered, List.mem_map, List.mem_filter]
  constructor
  · rintro ⟨p, ⟨hp, hcond⟩, hr⟩
    subst hr
    refine ⟨p, hp, rfl, ?_⟩
    simpa [-Bool.not_and, Bool.and_eq_true, decide_eq_true_eq] using hcond
  · rintro ⟨p, hp, hr, hk, himp⟩
    subst hr
    refine ⟨p, ⟨hp, ?_⟩, rfl⟩
    have himp' : p.r.z < 0 → p.r.y ≤ 0 := fun hz => le_of_not_lt fun hy => himp ⟨hz, hy⟩
    simpa [-Bool.not_and, Bool.and_eq_true, decide_eq_true_eq] using ⟨hk, himp'⟩

/-! ### Claim theorems -/

/-- C2: the point set used for fitting keeps exactly the "extra"-kind points,
always drops points with z < 0 and y > 0 (so such a point never influences the
fit), and then applies the optional strict y-range and z-range filters. -/
theorem C2_filter_characterization :
    ∀ (dig : List DigPoint) (oy oz : Option (ℚ × ℚ)) (L : List P3) (q : P3),
      filteredPoints dig (toLim oy) (toLim oz) = .ok L →
      (q ∈ L ↔ ∃ p ∈ dig, p.r = q ∧ p.kind = FIFFV_POINT_EXTRA ∧
        ¬(q.z < 0 ∧ q.y > 0) ∧ optInRange oy q.y ∧ optInRange oz q.z) := by
  intro dig oy oz L q hL
  rcases oy with _ | ⟨ylo, yhi⟩ <;> rcases oz with _ | ⟨zlo, zhi⟩ <;>
    simp only [toLim, filteredPoints, applyLim_none, applyLim_pair, ok_bind,
      Except.ok.injEq] at hL <;>
    subst hL <;>
    simp only [optInRange, List.mem_filter, mem_extraFiltered, decide_eq_true_eq,
      Bool.and_eq_true, gt_iff_lt, true_and, and_true, not_and, not_lt] <;>
    aesop

/-- C2 witness: on the octahedron with y-range (-0.01, 0.07) and no z-range,
the vertex (0, 0.05, 0.1) is retained. -/
theorem C2_filter_characterization_witness :
    (⟨0, 1/20, 1/10⟩ : P3) ∈
      ([⟨1/20, 0, 1/10⟩, ⟨-1/20, 0, 1/10⟩, ⟨0, 1/20, 1/10⟩, ⟨0, 0, 3/20⟩,
        ⟨0, 0, 1/20⟩] : List P3) := by
  have h := C2_filter_characterization octDig (some (-1/100, 7/100)) none
    [⟨1/20, 0, 1/10⟩, ⟨-1/20, 0, 1/10⟩, ⟨0, 1/20, 1/10⟩, ⟨0, 0, 3/20⟩, ⟨0, 0, 1/20⟩]
    ⟨0, 1/20, 1/10⟩
    (by norm_num [filteredPoints, applyLim, applyLim_pair, toLim, extraFiltered, octDig,
      FIFFV_POINT_EXTRA, limFilter_pair])
  exact h.mpr ⟨⟨4, ⟨0, 1/20, 1/10⟩⟩, by norm_num [octDig], rfl,
    by norm_num [FIFFV_POINT_EXTRA], by norm_num, by norm_num [optInRange],
    by norm_num [optInRange]⟩

/-- C3: when the filtering leaves zero points the routine raises `ValueError`
(an input error), for every minimizer and transform — in particular the
optimizer never runs and no degenerate sphere is returned. -/
theorem C3_empty_filtered_valueError :
    ∀ (fmin : FminT) (dig : List DigPoint) (tr : Transform) (ylim zlim : LimArg)
      (v : Option Bool),
      filteredPoints dig ylim zlim = .ok [] →
      fit_sphere_to_headshape fmin ⟨dig, tr⟩ ylim zlim v = .error .valueError := by
  intro fmin dig tr ylim zlim v h
  simp [fit_sphere_to_headshape, h]

/-- C3 witness: a digitization list with a single non-"extra" point filters to
the empty set and the fit raises `ValueError`. -/
theorem C3_empty_filtered_valueError_witness :
    fit_sphere_to_headshape (fun _ _ x => x) ⟨[⟨1, ⟨0, 0, 0⟩⟩], ⟨1, 4, transMat 0 0 0⟩⟩
      .noneArg .noneArg none = .error .valueError :=
  C3_empty_filtered_valueError _ _ _ _ _ _
    (by norm_num [filteredPoints, extraFiltered, applyLim, FIFFV_POINT_EXTRA])

/-- C8: the strict y-range and z-range filters are idempotent — feeding a
filter's output back into the same filter returns it unchanged. -/
theorem C8_range_filter_idempotent :
    ∀ (lo hi : ℚ) (l : List P3),
      ((applyLim (fun p => p.y) (.pair lo hi) l) >>= applyLim (fun p => p.y) (.pair lo hi))
        = applyLim (fun p => p.y) (.pair lo hi) l
      ∧ ((applyLim (fun p => p.z) (.pair lo hi) l) >>= applyLim (fun p => p.z) (.pair lo hi))
        = applyLim (fun p => p.z) (.pair lo hi) l := by
  intro lo hi l
  constructor <;> simp [applyLim_pair, List.filter_filter, Bool.and_self]

/-- Sanity of the `linalg.inv` embedding: the inverse of a pure translation is
the opposite translation. -/
theorem inv4_transMat (tx ty tz : ℚ) :
    (transMat tx ty tz).inv4 = transMat (-tx) (-ty) (-tz) := by
  simp only [transMat, Mat4.inv4, Mat4.det4, det3, Mat4.mk.injEq]
  norm_num

/-- Sanity of the `linalg.inv` embedding on a full concrete matrix: applying
`inv4` after the matrix is the identity on a sample vector. -/
theorem inv4_concrete_roundtrip :
    (⟨1, 2, 0, 1, 0, 1, 3, 0, 2, 0, 1, 4, 1, 1, 0, 2⟩ : Mat4).inv4.mulVec
      ((⟨1, 2, 0, 1, 0, 1, 3, 0, 2, 0, 1, 4, 1, 1, 0, 2⟩ : Mat4).mulVec (5, -3, 2, 7))
      = (5, -3, 2, 7) := by
  norm_num [Mat4.inv4, Mat4.det4, det3, Mat4.mulVec]

/-! ### Case analysis of the filtering stage -/

theorem limFilter_scalar_cases (coord : P3 → ℚ) (c : ℚ) (l : List P3) :
    limFilter coord (.scalar c) l = .ok [] ∨ limFilter coord (.scalar c) l = .error .typeError := by
  cases l with
  | nil => exact Or.inl rfl
  | cons p ps => exact Or.inr rfl

theorem applyLim_cases (coord : P3 → ℚ) (lim : LimArg) (l : List P3) :
    (∃ l', applyLim coord lim l = .ok l') ∨ applyLim coord lim l = .error .typeError := by
  cases lim with
  | noneArg => exact Or.inl ⟨l, rfl⟩
  | pair lo hi => exact Or.inl ⟨_, applyLim_pair coord lo hi l⟩
  | scalar c =>
    rcases limFilter_scalar_cases coord c l with h | h
    · exact Or.inl ⟨[], h⟩
    · exact Or.inr h

/-- The filtering stage either succeeds or raises `TypeError` (from
subscripting a non-pair limit); in particular it never raises
`RuntimeError`. -/
theorem filteredPoints_cases (dig : List DigPoint) (ylim zlim : LimArg) :
    (∃ L, filteredPoints dig ylim zlim = .ok L)
      ∨ filteredPoints dig ylim zlim = .error .typeError := by
  simp only [filteredPoints]
  rcases applyLim_cases (fun p => p.y) ylim (extraFiltered dig) with ⟨l₁, h₁⟩ | h₁
  · rw [h₁, ok_bind]
    rcases applyLim_cases (fun p => p.z) zlim l₁ with ⟨l₂, h₂⟩ | h₂
    · exact Or.inl ⟨l₂, h₂⟩
    · exact Or.inr h₂
  · rw [h₁, error_bind]
    exact Or.inr rfl

/-- C4 counterexample to the claim as stated: with an empty digitization list
and a transform tagged head-to-device (not device-to-head), the routine fails
with `ValueError` (the empty-input error), not with the `RuntimeError`
configuration error the claim requires. -/
theorem C4_counterexample :
    fit_sphere_to_headshape (fun _ _ x => x)
      ⟨[], ⟨FIFFV_COORD_HEAD, FIFFV_COORD_DEVICE, transMat 0 0 0⟩⟩ .noneArg .noneArg none
      = .error .valueError
    ∧ (Except.error PyErr.valueError : Except PyErr FitResult)
      ≠ .error .runtimeError := by
  constructor
  · norm_num [fit_sphere_to_headshape, filteredPoints, extraFiltered, applyLim]
  · simp

/-- C4 amended: whenever the filtering leaves a non-empty point set, a
transform not tagged device-to-head makes the routine fail with
`RuntimeError` (the configuration error) and no result is returned; and with
device-to-head tags a `RuntimeError` is never raised (on any input). -/
theorem C4_amended_frame_validation :
    ∀ (fmin : FminT) (dig : List DigPoint) (tr : Transform) (ylim zlim : LimArg)
      (v : Option Bool),
      ((∃ L, filteredPoints dig ylim zlim = .ok L ∧ L ≠ []) →
        (tr.fromFrame ≠ FIFFV_COORD_DEVICE ∨ tr.toFrame ≠ FIFFV_COORD_HEAD) →
        fit_sphere_to_headshape fmin ⟨dig, tr⟩ ylim zlim v = .error .runtimeError)
      ∧ (tr.fromFrame = FIFFV_COORD_DEVICE → tr.toFrame = FIFFV_COORD_HEAD →
        fit_sphere_to_headshape fmin ⟨dig, tr⟩ ylim zlim v ≠ .error .runtimeError) := by
  intro fmin dig tr ylim zlim v
  constructor
  · rintro ⟨L, hL, hne⟩ hbad
    simp [fit_sphere_to_headshape, hL, List.length_eq_zero, hne, fitFinish, hbad]
  · intro h1 h2
    rcases filteredPoints_cases dig ylim zlim with ⟨L, hL⟩ | hL
    · by_cases hemp : L = []
      · simp [fit_sphere_to_headshape, hL, hemp]
      · simp [fit_sphere_to_headshape, hL, hemp, fitFinish, h1, h2]
    · simp [fit_sphere_to_headshape, hL]

/-- C4 witness: on the octahedron with a head-to-device-tagged transform the
amended theorem yields the `RuntimeError`, and with the correct device-to-head
tags it rules a `RuntimeError` out. -/
theorem C4_amended_frame_validation_witness :
    fit_sphere_to_headshape (fun _ _ x => x)
      ⟨octDig, ⟨FIFFV_COORD_HEAD, FIFFV_COORD_DEVICE, transMat 0 0 0⟩⟩ .noneArg .noneArg none
      = .error .runtimeError
    ∧ fit_sphere_to_headshape (fun _ _ x => x)
      ⟨octDig, ⟨FIFFV_COORD_DEVICE, FIFFV_COORD_HEAD, transMat 0 0 0⟩⟩ .noneArg .noneArg none
      ≠ .error .runtimeError := by
  constructor
  · exact (C4_amended_frame_validation (fun _ _ x => x) octDig
      ⟨FIFFV_COORD_HEAD, FIFFV_COORD_DEVICE, transMat 0 0 0⟩ .noneArg .noneArg none).1
      ⟨octDig.map DigPoint.r,
        by norm_num [filteredPoints, extraFiltered, applyLim, octDig, FIFFV_POINT_EXTRA],
        by norm_num [octDig, List.cons_ne_nil]⟩
      (by norm_num [FIFFV_COORD_HEAD, FIFFV_COORD_DEVICE])
  · exact (C4_amended_frame_validation (fun _ _ x => x) octDig
      ⟨FIFFV_COORD_DEVICE, FIFFV_COORD_HEAD, transMat 0 0 0⟩ .noneArg .noneArg none).2
      rfl rfl

/-- C5: on success the returned `center_device` is 1000 times the first three
components of the inverted transform applied to the homogeneous vector
`(center_head / 1000, 1)`, where `center_head` is the first three components
of the optimizer result and `radius` its fourth. -/
theorem C5_device_center_formula :
    ∀ (fmin : FminT) (dig : List DigPoint) (tr : Transform) (ylim zlim : LimArg)
      (v : Option Bool) (L : List P3),
      filteredPoints dig ylim zlim = .ok L → L ≠ [] →
      tr.fromFrame = FIFFV_COORD_DEVICE → tr.toFrame = FIFFV_COORD_HEAD →
      fit_sphere_to_headshape fmin ⟨dig, tr⟩ ylim zlim v =
        (let x := fmin (v.getD false) (L.map scalePoint) (initGuess (L.map scalePoint))
         let oh : P3 := ⟨x.1, x.2.1, x.2.2.1⟩
         let w := tr.mat.inv4.mulVec (oh.x / 1000, oh.y / 1000, oh.z / 1000, 1)
         .ok (x.2.2.2, oh, ⟨1000 * w.1, 1000 * w.2.1, 1000 * w.2.2.1⟩)) := by
  intro fmin dig tr ylim zlim v L hL hne h1 h2
  simp [fit_sphere_to_headshape, hL, List.length_eq_zero, hne, fitFinish, h1, h2]

/-- C5 witness: concrete evaluation on the octahedron with a pure-translation
transform; the device-frame center is the head-frame center minus the
translation (in mm). -/
theorem C5_device_center_formula_witness :
    fit_sphere_to_headshape (fun _ _ _ => ((0 : ℚ), (0 : ℚ), (100 : ℚ), (50 : ℚ)))
      ⟨octDig, ⟨1, 4, transMat (1/100) (1/50) 0⟩⟩ .noneArg .noneArg none
      = .ok (50, ⟨0, 0, 100⟩, ⟨-10, -20, 100⟩) := by
  have h := C5_device_center_formula (fun _ _ _ => ((0 : ℚ), (0 : ℚ), (100 : ℚ), (50 : ℚ)))
    octDig ⟨1, 4, transMat (1/100) (1/50) 0⟩ .noneArg .noneArg none (octDig.map DigPoint.r)
    (by norm_num [filteredPoints, extraFiltered, applyLim, octDig, FIFFV_POINT_EXTRA])
    (by norm_num [octDig, List.cons_ne_nil]) rfl rfl
  rw [h]
  norm_num [transMat, Mat4.inv4, Mat4.det4, det3, Mat4.mulVec]

/-- C6: before fitting, the filtered points are scaled by 1000 (meters to
millimeters), and the optimizer is started exactly at `(0, 0, max z - r0, r0)`
with `r0` the mean of the x and y half-ranges of the scaled points. -/
theorem C6_scaling_and_initial_guess :
    ∀ (fmin : FminT) (dig : List DigPoint) (tr : Transform) (ylim zlim : LimArg)
      (v : Option Bool) (L : List P3),
      filteredPoints dig ylim zlim = .ok L → L ≠ [] →
      fit_sphere_to_headshape fmin ⟨dig, tr⟩ ylim zlim v =
        (let mm := L.map fun p => (⟨1000 * p.x, 1000 * p.y, 1000 * p.z⟩ : P3)
         let r0 := ((listMax (mm.map P3.x) - listMin (mm.map P3.x)) / 2
             + (listMax (mm.map P3.y) - listMin (mm.map P3.y)) / 2) / 2
         fitFinish tr (fmin (v.getD false) mm (0, 0, listMax (mm.map P3.z) - r0, r0))) := by
  intro fmin dig tr ylim zlim v L hL hne
  have hs : scalePoint = fun p : P3 => (⟨1000 * p.x, 1000 * p.y, 1000 * p.z⟩ : P3) := rfl
  simp [fit_sphere_to_headshape, hL, List.length_eq_zero, hne, initGuess, hs]

/-- C6 witness: on the octahedron the half-ranges are both 50, so the
optimizer starts at `(0, 0, 100, 50)`; a minimizer returning its starting
point then yields exactly the octahedron's sphere. -/
theorem C6_scaling_and_initial_guess_witness :
    fit_sphere_to_headshape (fun _ _ x => x) ⟨octDig, ⟨1, 4, transMat 0 0 0⟩⟩
      .noneArg .noneArg none = .ok (50, ⟨0, 0, 100⟩, ⟨0, 0, 100⟩) := by
  have h := C6_scaling_and_initial_guess (fun _ _ x => x) octDig ⟨1, 4, transMat 0 0 0⟩
    .noneArg .noneArg none (octDig.map DigPoint.r)
    (by norm_num [filteredPoints, extraFiltered, applyLim, octDig, FIFFV_POINT_EXTRA])
    (by norm_num [octDig, List.cons_ne_nil])
  rw [h]
  norm_num [octDig, listMax, listMin, fitFinish, FIFFV_COORD_DEVICE, FIFFV_COORD_HEAD,
    transMat, Mat4.inv4, Mat4.det4, det3, Mat4.mulVec]

/-- C7: the returned triple does not depend on the `verbose` argument, which
only selects the minimizer's display flag; for any minimizer whose result
ignores the display flag (scipy's `disp` only controls printing), two runs
differing only in `verbose` return the same result. -/
theorem C7_verbose_independent :
    ∀ (fmin : FminT),
      (∀ d₁ d₂ hsp x0, fmin d₁ hsp x0 = fmin d₂ hsp x0) →
      ∀ (info : Info) (ylim zlim : LimArg) (v₁ v₂ : Option Bool),
        fit_sphere_to_headshape fmin info ylim zlim v₁
          = fit_sphere_to_headshape fmin info ylim zlim v₂ := by
  intro fmin hf info ylim zlim v₁ v₂
  unfold fit_sphere_to_headshape
  rcases filteredPoints_cases info.dig ylim zlim with ⟨L, hL⟩ | hL
  · rw [hL, ok_bind, ok_bind]
    by_cases hlen : L.length = 0
    · simp [hlen]
    · simp only [hlen, if_false]
      rw [hf (v₁.getD false) (v₂.getD false)]
  · rw [hL, error_bind, error_bind]

/-- C7 witness: a minimizer ignoring its display flag gives identical results
for `verbose = some true` and `verbose = none` on the octahedron. -/
theorem C7_verbose_independent_witness :
    fit_sphere_to_headshape (fun _ _ x => x) ⟨octDig, ⟨1, 4, transMat 0 0 0⟩⟩
      .noneArg .noneArg (some true)
      = fit_sphere_to_headshape (fun _ _ x => x) ⟨octDig, ⟨1, 4, transMat 0 0 0⟩⟩
      .noneArg .noneArg none :=
  C7_verbose_independent (fun _ _ x => x) (fun _ _ _ _ => rfl)
    ⟨octDig, ⟨1, 4, transMat 0 0 0⟩⟩ .noneArg .noneArg (some true) none

/-! ### The least-squares objective -/

theorem cost_fun_nonneg (x : V4) (hsp : List P3) : 0 ≤ cost_fun x hsp := by
  unfold cost_fun
  apply List.sum_nonneg
  intro a ha
  obtain ⟨p, _, rfl⟩ := List.mem_map.mp ha
  positivity

theorem list_sum_zero_of_nonneg :
    ∀ {l : List ℝ}, (∀ a ∈ l, 0 ≤ a) → l.sum = 0 → ∀ a ∈ l, a = 0 := by
  intro l
  induction l with
  | nil => intro _ _ a ha; cases ha
  | cons b t ih =>
    intro hnn hsum a ha
    have hb : 0 ≤ b := hnn b (List.mem_cons_self b t)
    have htnn : ∀ a ∈ t, 0 ≤ a := fun a ha => hnn a (List.mem_cons_of_mem _ ha)
    have htsum : 0 ≤ t.sum := List.sum_nonneg htnn
    rw [List.sum_cons] at hsum
    rcases List.mem_cons.mp ha with rfl | ha'
    · linarith
    · exact ih htnn (by linarith) a ha'

/-- A zero objective forces every point's residual term to vanish. -/
theorem cost_zero_per_point {x : V4} {hsp : List P3} (h : cost_fun x hsp = 0) :
    ∀ p ∈ hsp,
      (Real.sqrt (((p.x - x.1) ^ 2 + (p.y - x.2.1) ^ 2 + (p.z - x.2.2.1) ^ 2 : ℚ) : ℝ)
        - (x.2.2.2 : ℝ)) ^ 2 = 0 := by
  intro p hp
  unfold cost_fun at h
  refine list_sum_zero_of_nonneg ?_ h _ (List.mem_map_of_mem _ hp)
  intro a ha
  obtain ⟨p', _, rfl⟩ := List.mem_map.mp ha
  positivity

/-- A vanishing residual term gives a non-negative radius whose square is the
squared distance. -/
theorem sqrt_term_zero {S r : ℝ} (hS : 0 ≤ S) (h : (Real.sqrt S - r) ^ 2 = 0) :
    0 ≤ r ∧ r ^ 2 = S := by
  have h1 : Real.sqrt S - r = 0 := by
    exact (pow_eq_zero_iff (by norm_num : (2 : ℕ) ≠ 0)).mp h
  have h2 : Real.sqrt S = r := by linarith
  refine ⟨h2 ▸ Real.sqrt_nonneg S, ?_⟩
  rw [← h2, Real.sq_sqrt hS]

/-- The objective vanishes at the true octahedron parameters (0, 0, 100, 50). -/
theorem cost_octa_opt : cost_fun (0, 0, 100, 50) octHsp = 0 := by
  have h2500 : Real.sqrt (2500 : ℝ) = 50 := by
    rw [show (2500 : ℝ) = 50 ^ 2 by norm_num]
    exact Real.sqrt_sq (by norm_num)
  simp only [cost_fun, octHsp, List.map_cons, List.map_nil, List.sum_cons, List.sum_nil]
  push_cast
  norm_num [h2500]

/-- C1 amended: on the octahedron scenario (which determines the sphere
uniquely) any optimizer result that attains the global minimum of the
objective makes the routine return exactly radius 50 mm, head-frame center
(0, 0, 100) mm, and a device-frame center equal to the head-frame center
minus the translation (in mm), for every pure-translation device-to-head
transform. -/
theorem C1_amended_octahedron_exact :
    ∀ (x_opt : V4) (tx ty tz : ℚ),
      (∀ y : V4, cost_fun x_opt octHsp ≤ cost_fun y octHsp) →
      fit_sphere_to_headshape (fun _ _ _ => x_opt) (octInfo tx ty tz) .noneArg .noneArg none
        = .ok (50, ⟨0, 0, 100⟩, ⟨0 - 1000 * tx, 0 - 1000 * ty, 100 - 1000 * tz⟩) := by
  intro x_opt tx ty tz hmin
  obtain ⟨cx, cy, cz, r⟩ := x_opt
  have hzero : cost_fun (cx, cy, cz, r) octHsp = 0 :=
    le_antisymm (by simpa [cost_octa_opt] using hmin (0, 0, 100, 50))
      (cost_fun_nonneg _ _)
  have key : ∀ px py pz : ℚ, (⟨px, py, pz⟩ : P3) ∈ octHsp →
      0 ≤ r ∧ r ^ 2 = (px - cx) ^ 2 + (py - cy) ^ 2 + (pz - cz) ^ 2 := by
    intro px py pz hp
    have hterm := cost_zero_per_point hzero ⟨px, py, pz⟩ hp
    have hS : (0 : ℝ) ≤ (((px - cx) ^ 2 + (py - cy) ^ 2 + (pz - cz) ^ 2 : ℚ) : ℝ) := by
      positivity
    obtain ⟨h0, hsq⟩ := sqrt_term_zero hS hterm
    exact ⟨by exact_mod_cast h0, by exact_mod_cast hsq⟩
  have hr0 : 0 ≤ r := (key 50 0 100 (by simp [octHsp])).1
  have E1 := (key 50 0 100 (by simp [octHsp])).2
  have E2 := (key (-50) 0 100 (by simp [octHsp])).2
  have E3 := (key 0 50 100 (by simp [octHsp])).2
  have E4 := (key 0 (-50) 100 (by simp [octHsp])).2
  have E5 := (key 0 0 150 (by simp [octHsp])).2
  have E6 := (key 0 0 50 (by simp [octHsp])).2
  have hcx : cx = 0 := by linear_combination (E1 - E2) / 200
  have hcy : cy = 0 := by linear_combination (E3 - E4) / 200
  have hcz : cz = 100 := by linear_combination (E5 - E6) / 200
  subst hcx hcy hcz
  have hfact : (r - 50) * (r + 50) = 0 := by linear_combination E1
  have hr : r = 50 := by
    rcases mul_eq_zero.mp hfact with h | h
    · linarith
    · linarith
  subst hr
  norm_num [fit_sphere_to_headshape, filteredPoints, extraFiltered, applyLim, octInfo,
    octDig, FIFFV_POINT_EXTRA, fitFinish, FIFFV_COORD_DEVICE, FIFFV_COORD_HEAD, transMat,
    Mat4.inv4, Mat4.det4, det3, Mat4.mulVec, scalePoint, List.cons_ne_nil]
  ring

/-- C1 witness: the exact octahedron recovery instantiated at the global
minimizer (0, 0, 100, 50) and the translation (0.01, 0.02, 0.03) m. -/
theorem C1_amended_octahedron_exact_witness :
    fit_sphere_to_headshape (fun _ _ _ => ((0 : ℚ), (0 : ℚ), (100 : ℚ), (50 : ℚ)))
      (octInfo (1/100) (1/50) (3/100)) .noneArg .noneArg none
      = .ok (50, ⟨0, 0, 100⟩,
          ⟨0 - 1000 * (1/100), 0 - 1000 * (1/50), 100 - 1000 * (3/100)⟩) := by
  apply C1_amended_octahedron_exact
  intro y
  rw [cost_octa_opt]
  exact cost_fun_nonneg y octHsp

/-- C1 counterexample to the claim as stated: the general recovery property is
false, because a point set on a sphere need not determine it.  A single point
at (0, 0, 150 mm) lies on the sphere with center (0, 0, 100 mm) and radius
50 mm; the initial guess (0, 0, 150, 0) already attains objective value 0 (a
global minimum), and the routine then returns radius 0 — not within 1e-3 mm
of 50 mm.  (This is also what scipy's Powell search does: started at a global
minimum that is strict along every coordinate direction, it returns the
starting point.) -/
theorem C1_counterexample :
    ¬ (∀ (fmin : FminT) (dig : List DigPoint) (tr : Transform) (c : P3) (R : ℚ)
        (L : List P3),
        filteredPoints dig .noneArg .noneArg = .ok L → L ≠ [] →
        (∀ p ∈ L.map scalePoint,
          (p.x - c.x) ^ 2 + (p.y - c.y) ^ 2 + (p.z - c.z) ^ 2 = R ^ 2) →
        (∀ y : V4,
          cost_fun (fmin false (L.map scalePoint) (initGuess (L.map scalePoint)))
            (L.map scalePoint)
          ≤ cost_fun y (L.map scalePoint)) →
        ∀ r oh od,
          fit_sphere_to_headshape fmin ⟨dig, tr⟩ .noneArg .noneArg none = .ok (r, oh, od) →
          |r - R| ≤ 1/1000 ∧ |oh.x - c.x| ≤ 1/1000 ∧ |oh.y - c.y| ≤ 1/1000
            ∧ |oh.z - c.z| ≤ 1/1000) := by
  intro hclaim
  have hmap : List.map scalePoint [(⟨0, 0, 3/20⟩ : P3)] = [(⟨0, 0, 150⟩ : P3)] := by
    norm_num [scalePoint]
  have hinit : initGuess [(⟨0, 0, 150⟩ : P3)] = (0, 0, 150, 0) := by
    norm_num [initGuess, listMax, listMin]
  have h0 : cost_fun (0, 0, 150, 0) [(⟨0, 0, 150⟩ : P3)] = 0 := by
    simp only [cost_fun, List.map_cons, List.map_nil, List.sum_cons, List.sum_nil]
    push_cast
    norm_num
  have h := hclaim (fun _ _ x0 => x0) singleDig ⟨1, 4, transMat 0 0 0⟩ ⟨0, 0, 100⟩ 50
    [⟨0, 0, 3/20⟩]
    (by norm_num [filteredPoints, extraFiltered, applyLim, singleDig, FIFFV_POINT_EXTRA])
    (by norm_num)
    (by
      rw [hmap]
      intro p hp
      rcases List.mem_singleton.mp hp with rfl
      norm_num)
    (by
      rw [hmap, hinit]
      intro y
      simp only []
      rw [h0]
      exact cost_fun_nonneg y _)
    0 ⟨0, 0, 150⟩ ⟨0, 0, 150⟩
    (by norm_num [fit_sphere_to_headshape, filteredPoints, extraFiltered, applyLim,
      singleDig, FIFFV_POINT_EXTRA, scalePoint, initGuess, listMax, listMin, fitFinish,
      FIFFV_COORD_DEVICE, FIFFV_COORD_HEAD, transMat, Mat4.inv4, Mat4.det4, det3,
      Mat4.mulVec, List.cons_ne_nil])
  norm_num at h

/-! ### The `build_maxfilter_cmd` claims -/

/-- With the scalar `ylim = 0.070` that `build_maxfilter_cmd` passes, the fit
always raises: `TypeError` from `ylim[0]` when any point survives the kind
filter, `ValueError` when none does. -/
theorem fit_scalar_ylim_errors (fmin : FminT) (info : Info) (v : Option Bool) :
    ∃ e, fit_sphere_to_headshape fmin info (.scalar (7/100)) .noneArg v = .error e := by
  cases h : extraFiltered info.dig with
  | nil =>
    refine ⟨.valueError, ?_⟩
    simp [fit_sphere_to_headshape, filteredPoints, h, applyLim, limFilter]
  | cons p ps =>
    refine ⟨.typeError, ?_⟩
    simp [fit_sphere_to_headshape, filteredPoints, h, applyLim, limFilter, limSub]

/-- C9: the `origin=None` path of `build_maxfilter_cmd` always raises and
never assigns a command: the scalar `ylim=0.070` it passes to the fit cannot
be subscripted (`ylim[0]` is a `TypeError`), and its log format fields
(`{.1f}`, i.e. field content `.1f`) are invalid for float arguments,
raising `AttributeError` when evaluated. -/
theorem C9_origin_none_always_raises :
    (∀ (fmin : FminT) (info : Info) (a : BuildArgs), a.origin = .noneArg →
      ¬ ∃ s, build_maxfilter_cmd fmin info a = .ok s)
    ∧ limSub (.scalar (7/100)) 0 = .error .typeError
    ∧ (∀ q : ℚ, pyFloatField ".1f" q = .error .attributeError) := by
  refine ⟨?_, rfl, ?_⟩
  · rintro fmin info a ha ⟨s, hs⟩
    obtain ⟨e, he⟩ := fit_scalar_ylim_errors fmin info none
    simp [build_maxfilter_cmd, resolveOrigin, ha, he] at hs
  · intro q
    simp [pyFloatField, checkAccesses, floatAttrs]

/-- C9 witness: on the octahedron info with default-like arguments and
`origin=None`, no command string is produced. -/
theorem C9_origin_none_always_raises_witness :
    ¬ ∃ s, build_maxfilter_cmd (fun _ _ x => x) (octInfo 0 0 0)
      { baseArgs with origin := .noneArg } = .ok s :=
  C9_origin_none_always_raises.1 (fun _ _ x => x) (octInfo 0 0 0)
    { baseArgs with origin := .noneArg } rfl

/-- C10 counterexample to the claim as stated: a call with `st=True` and the
float default `st_buflen=16.0` that also passes `origin=None` raises the
`TypeError` from the fit's scalar `ylim` subscripting, not the `'{:d}'`
formatting `ValueError` the claim requires. -/
theorem C10_counterexample :
    build_maxfilter_cmd (fun _ _ x => x) (octInfo 0 0 0)
      { baseArgs with origin := .noneArg, st := true } = .error .typeError
    ∧ (Except.error PyErr.typeError : Except PyErr String) ≠ .error .valueError := by
  constructor
  · norm_num [build_maxfilter_cmd, resolveOrigin, baseArgs, fit_sphere_to_headshape,
      filteredPoints, extraFiltered, octInfo, octDig, FIFFV_POINT_EXTRA, applyLim,
      limFilter, limSub]
  · simp

/-- C10 amended: every call that supplies an origin (so that command
formatting is reached) with `st=True` and a float `st_buflen` — including the
default `16.0` — raises the formatting `ValueError` from `' {:d}
'.format(st_buflen)` before completing, so MaxST is unusable with its default
parameters. -/
theorem C10_amended_st_buflen_format :
    ∀ (fmin : FminT) (info : Info) (a : BuildArgs) (q : ℚ),
      a.origin ≠ .noneArg → a.st = true → a.st_buflen = .float q →
      build_maxfilter_cmd fmin info a = .error .valueError := by
  intro fmin info a q ho hst hbuf
  cases horig : a.origin with
  | noneArg => exact absurd horig ho
  | str s => simp [build_maxfilter_cmd, resolveOrigin, horig, hst, hbuf, formatD]
  | falseArg => simp [build_maxfilter_cmd, resolveOrigin, horig, hst, hbuf, formatD]
  | triple x y z =>
    have h1 : ∀ w : ℚ, pyFloatField ":.1f" w = .ok (formatFixed 1 w) := fun w => by
      simp [pyFloatField, checkAccesses, parsePrecF]
    simp [build_maxfilter_cmd, resolveOrigin, horig, hst, hbuf, formatD, h1]

/-- C10 witness: the defaults with `st=True` (string origin `'0 0 40'`,
`st_buflen=16.0`) raise the formatting `ValueError`. -/
theorem C10_amended_st_buflen_format_witness :
    build_maxfilter_cmd (fun _ _ x => x) (octInfo 0 0 0) { baseArgs with st := true }
      = .error .valueError :=
  C10_amended_st_buflen_format (fun _ _ x => x) (octInfo 0 0 0)
    { baseArgs with st := true } 16 (by simp [baseArgs]) rfl rfl

end Stormdb
